import Mathlib

/-!
Verification development for the ZeroHack detection-and-fusion pipeline.

The definitions below are shallow embeddings of the Python sources:
* `src/aggregator.py` — the `Aggregator.aggregate_results` fusion logic;
* `src/backend/services/signature_engine.py` — the SSH brute-force rule;
* `src/Isolation_forest.py`, `src/autoencoder_train_test.py`,
  `src/backend/services/lstm_train_test.py` — detector state, artifact
  hot-reload, and the `predict` contracts;
* `src/threat_detector.py` — event formatting for the signature engine;
* `src/config.py` — the module-level attribute set of the configuration module.

Machine floats are modelled by `ℚ`; Python `datetime` values by their epoch
offset in seconds (`ℚ`); dict-based records by structures; exceptions by
`Option` (`none` = the corresponding Python code raised).
-/

namespace ZeroHack

/-! ## Data model (src/aggregator.py docstrings, spec §3) -/

/-- Output of one detector layer: `{'verdict', 'score', 'explanation'}`, with the
optional `model_type` key carried by the behavioral detectors. -/
structure DetectionResult where
  verdict : String
  score : ℚ
  explanation : String
  model_type : Option String := none

/-- Detail map attached by signature-engine findings (only the fields the rules
in `signature_engine.py` actually populate for the brute-force rule). -/
structure SigDetails where
  source_ip : String
  dest_port : ℤ
  attempt_timestamps : List ℚ
  observed_attempts_in_burst : ℕ
deriving DecidableEq

/-- One signature-engine finding:
`{'is_match', 'confidence', 'rule_id', 'explanation', 'details'}`. -/
structure SignatureFinding where
  is_match : Bool
  confidence : ℚ
  rule_id : String
  explanation : String
  details : Option SigDetails := none

/-- One entry of `layer_outputs` in the aggregated verdict. -/
structure LayerOutput where
  layer : String
  verdict : String
  score : ℚ
  rule_id : Option String := none
  explanation : String

/-- The dict returned by `Aggregator.aggregate_results`. -/
structure AggregatedVerdict where
  final_verdict : String
  confidence : ℚ
  explanation_summary : String
  layer_outputs : List LayerOutput

/-! ## Aggregator configuration (src/aggregator.py lines 9-18) -/

def AI_SCORE_THRESHOLD_IF : ℚ := -1/10

def AI_SCORE_THRESHOLD_AE_LSTM : ℚ := 7/10

def WEIGHT_SIGNATURE : ℚ := 6/10

def WEIGHT_ISOLATION_FOREST : ℚ := 2/10

def WEIGHT_BEHAVIORAL_AI : ℚ := 2/10

def FINAL_VERDICT_THRESHOLD_THREAT : ℚ := 65/100

/-- Python `round(x, 2)`: round to two decimal places. -/
def round2 (x : ℚ) : ℚ := (round (x * 100) : ℤ) / 100

/-! ## Aggregator.aggregate_results (src/aggregator.py lines 25-157) -/

/-- One step of the scan selecting the highest-confidence signature finding
(`if highest is None or finding['confidence'] > highest['confidence']`),
taken only for findings whose `is_match` flag is set. -/
def sigStep (best : Option SignatureFinding) (f : SignatureFinding) :
    Option SignatureFinding :=
  if f.is_match then
    match best with
    | none => some f
    | some b => if b.confidence < f.confidence then some f else some b
  else best

/-- The `highest_confidence_signature` selected by the first loop of
`aggregate_results`. -/
def highest_confidence_signature (findings : List SignatureFinding) :
    Option SignatureFinding :=
  findings.foldl sigStep none

/-- Threat likelihood the aggregator assigns to the Isolation-Forest channel:
0.6 for a plain `anomaly` verdict, escalated to 0.8 when the score is below
`AI_SCORE_THRESHOLD_IF`, and 0 otherwise (lines 92-101). -/
def ifLikelihood (r : DetectionResult) : ℚ :=
  if r.verdict = "anomaly" then
    if r.score < AI_SCORE_THRESHOLD_IF then 8/10 else 6/10
  else 0

/-- Threat likelihood for the behavioral (Autoencoder/LSTM) channel: 0.6 for
`anomaly`, escalated to 0.8 when the MSE score exceeds
`AI_SCORE_THRESHOLD_AE_LSTM`, and 0 otherwise (lines 118-126). -/
def behavioralLikelihood (r : DetectionResult) : ℚ :=
  if r.verdict = "anomaly" then
    if AI_SCORE_THRESHOLD_AE_LSTM < r.score then 8/10 else 6/10
  else 0

/-- Likelihood contribution of the Isolation-Forest channel argument; a channel
passed as `none` models Python `None` (falsy) and contributes 0. -/
def ifChannelLikelihood : Option DetectionResult → ℚ
  | none => 0
  | some r => ifLikelihood r

/-- Likelihood contribution of the behavioral channel argument. -/
def behavioralChannelLikelihood : Option DetectionResult → ℚ
  | none => 0
  | some r => behavioralLikelihood r

/-- Contribution of one anomaly channel to `num_threat_signals`: 1 when the
channel is present with verdict `anomaly`, else 0. -/
def channelSignal : Option DetectionResult → ℕ
  | none => 0
  | some r => if r.verdict = "anomaly" then 1 else 0

/-- Contribution of the signature pass (lines 75-77) to the accumulator:
`WEIGHT_SIGNATURE × confidence` and one signal when the selected signature has
confidence ≥ 0.9, else nothing. -/
def sigContribution (signature_findings : List SignatureFinding) : ℚ × ℕ :=
  match highest_confidence_signature signature_findings with
  | some s => if 9/10 ≤ s.confidence then (WEIGHT_SIGNATURE * s.confidence, 1) else (0, 0)
  | none => (0, 0)

/-- Accumulation phase of `aggregate_results` (lines 47-128): returns the
running `final_confidence` total and `num_threat_signals` count, before the
clamp and the verdict decision. -/
def accumulate (isolation_forest_result behavioral_ai_result : Option DetectionResult)
    (signature_findings : List SignatureFinding) : ℚ × ℕ :=
  let sigPart := sigContribution signature_findings
  (sigPart.1 + WEIGHT_ISOLATION_FOREST * ifChannelLikelihood isolation_forest_result
     + WEIGHT_BEHAVIORAL_AI * behavioralChannelLikelihood behavioral_ai_result,
   sigPart.2 + channelSignal isolation_forest_result + channelSignal behavioral_ai_result)

/-- Whether a strong (confidence ≥ 0.9) signature match was selected
(condition of lines 75 and 138). -/
def strongSignature (signature_findings : List SignatureFinding) : Bool :=
  match highest_confidence_signature signature_findings with
  | some s => decide ((9:ℚ)/10 ≤ s.confidence)
  | none => false

/-- Final confidence after the verdict decision (lines 136-145), taking the
already-clamped confidence and the signal count. -/
def decidedConfidence (strong : Bool) (fc : ℚ) (n : ℕ) : ℚ :=
  if strong then max fc (9/10)
  else if FINAL_VERDICT_THRESHOLD_THREAT < fc then fc
  else if 2 ≤ n then max fc (1/2)
  else fc

/-- Final verdict string decided on lines 136-145. -/
def decidedVerdict (strong : Bool) (fc : ℚ) (n : ℕ) : String :=
  if strong then "THREAT"
  else if FINAL_VERDICT_THRESHOLD_THREAT < fc then "THREAT"
  else if 2 ≤ n then "THREAT"
  else "SAFE"

/-- Explanation strings collected by `aggregate_results`, in source order:
one per matched signature finding, then the Isolation-Forest channel, then
the behavioral channel. -/
def collectedExplanations (isolation_forest_result behavioral_ai_result : Option DetectionResult)
    (signature_findings : List SignatureFinding) : List String :=
  ((signature_findings.filter (·.is_match)).map
      (fun f => "Signature Matcher: " ++ f.explanation))
  ++ (match isolation_forest_result with
      | some r => ["Isolation Forest: " ++ r.explanation]
      | none => [])
  ++ (match behavioral_ai_result with
      | some r => ["Behavioral AI (" ++ r.model_type.getD "AE/LSTM" ++ "): " ++ r.explanation]
      | none => [])

/-- `layer_outputs` list assembled by `aggregate_results`, in source order. -/
def collectedLayerOutputs (isolation_forest_result behavioral_ai_result : Option DetectionResult)
    (signature_findings : List SignatureFinding) : List LayerOutput :=
  ((signature_findings.filter (·.is_match)).map
      (fun f => { layer := "Signature", verdict := "threat", score := f.confidence,
                  rule_id := some f.rule_id, explanation := f.explanation }))
  ++ (match isolation_forest_result with
      | some r => [{ layer := "IsolationForest", verdict := r.verdict, score := r.score,
                     explanation := r.explanation }]
      | none => [])
  ++ (match behavioral_ai_result with
      | some r => [{ layer := "BehavioralAI (" ++ r.model_type.getD "AE/LSTM" ++ ")",
                     verdict := r.verdict, score := r.score, explanation := r.explanation }]
      | none => [])

/-- `Aggregator.aggregate_results` (src/aggregator.py lines 25-157): fuses the
two anomaly-channel results and the signature findings into one verdict. -/
def aggregate_results (isolation_forest_result behavioral_ai_result : Option DetectionResult)
    (signature_findings : List SignatureFinding) : AggregatedVerdict :=
  let acc := accumulate isolation_forest_result behavioral_ai_result signature_findings
  let strong := strongSignature signature_findings
  let fc := min acc.1 1
  let verdict := decidedVerdict strong fc acc.2
  let conf := decidedConfidence strong fc acc.2
  let explanations :=
    collectedExplanations isolation_forest_result behavioral_ai_result signature_findings
  let summary0 :=
    if explanations.isEmpty then "No specific threats or anomalies detected by any layer."
    else String.intercalate "\n" explanations
  let summary :=
    if verdict = "THREAT" ∧ explanations.isEmpty then
      "Threat detected based on aggregated scores, but individual explanations were missing."
    else summary0
  { final_verdict := verdict,
    confidence := round2 conf,
    explanation_summary := summary,
    layer_outputs :=
      collectedLayerOutputs isolation_forest_result behavioral_ai_result signature_findings }

end ZeroHack

namespace ZeroHack

/-! ## Scenario inputs for the aggregator claims -/

/-- Isolation-Forest channel result of the spec's §8 scenario: verdict
`anomaly` with score −0.2. -/
def ifScenarioResult : DetectionResult :=
  { verdict := "anomaly", score := -2/10,
    explanation := "Unusual packet size and TTL combination detected." }

/-- Behavioral channel result of the spec's §8 scenario: verdict `anomaly`
with score 0.85. -/
def behavioralScenarioResult : DetectionResult :=
  { verdict := "anomaly", score := 85/100,
    explanation := "High reconstruction error, indicating deviation from normal behavior.",
    model_type := some "Autoencoder" }

/-- C1: for the aggregate operation applied to an Isolation-Forest result with
verdict `anomaly` and score −0.2, a behavioral result with verdict `anomaly`
and score 0.85, and no signature findings, the accumulated final confidence is
0.32 with a threat-signal count of 2, and the returned verdict is `THREAT`
with confidence 0.5. -/
theorem aggregate_scenario_weak_signals :
    accumulate (some ifScenarioResult) (some behavioralScenarioResult) [] = (32/100, 2) ∧
    (aggregate_results (some ifScenarioResult) (some behavioralScenarioResult) []).final_verdict
      = "THREAT" ∧
    (aggregate_results (some ifScenarioResult) (some behavioralScenarioResult) []).confidence
      = (1:ℚ)/2 := by
  refine ⟨?_, ?_, ?_⟩ <;>
    norm_num [accumulate, aggregate_results, highest_confidence_signature, sigStep,
      sigContribution, ifChannelLikelihood, behavioralChannelLikelihood, channelSignal,
      ifLikelihood, behavioralLikelihood, ifScenarioResult, behavioralScenarioResult,
      strongSignature, decidedVerdict, decidedConfidence, round2, min_def, max_def,
      WEIGHT_SIGNATURE, WEIGHT_ISOLATION_FOREST, WEIGHT_BEHAVIORAL_AI,
      AI_SCORE_THRESHOLD_IF, AI_SCORE_THRESHOLD_AE_LSTM, FINAL_VERDICT_THRESHOLD_THREAT]

end ZeroHack

namespace ZeroHack

/-! ## Facts about the signature selection scan -/

theorem sigFold_from_some (l : List SignatureFinding) (b : SignatureFinding) :
    ∃ s, l.foldl sigStep (some b) = some s ∧ b.confidence ≤ s.confidence := by
  induction l generalizing b with
  | nil => exact ⟨b, rfl, le_rfl⟩
  | cons g l ih =>
    simp only [List.foldl_cons]
    by_cases hg : g.is_match
    · by_cases hbg : b.confidence < g.confidence
      · obtain ⟨s, hs, hle⟩ := ih g
        refine ⟨s, ?_, le_trans hbg.le hle⟩
        simpa [sigStep, hg, hbg] using hs
      · obtain ⟨s, hs, hle⟩ := ih b
        refine ⟨s, ?_, hle⟩
        simpa [sigStep, hg, hbg] using hs
    · obtain ⟨s, hs, hle⟩ := ih b
      refine ⟨s, ?_, hle⟩
      simpa [sigStep, hg] using hs

theorem sigFold_mem (l : List SignatureFinding) (acc : Option SignatureFinding)
    (f : SignatureFinding) (hf : f ∈ l) (hm : f.is_match = true) :
    ∃ s, l.foldl sigStep acc = some s ∧ f.confidence ≤ s.confidence := by
  induction l generalizing acc with
  | nil => cases hf
  | cons g l ih =>
    rcases List.mem_cons.mp hf with rfl | hf'
    · simp only [List.foldl_cons]
      have hstep : ∃ c, sigStep acc f = some c ∧ f.confidence ≤ c.confidence := by
        cases acc with
        | none => exact ⟨f, by simp [sigStep, hm], le_rfl⟩
        | some b =>
          by_cases hbf : b.confidence < f.confidence
          · exact ⟨f, by simp [sigStep, hm, hbf], le_rfl⟩
          · exact ⟨b, by simp [sigStep, hm, hbf], not_lt.mp hbf⟩
      obtain ⟨c, hc, hle⟩ := hstep
      rw [hc]
      obtain ⟨s, hs, hle'⟩ := sigFold_from_some l c
      exact ⟨s, hs, le_trans hle hle'⟩
    · simp only [List.foldl_cons]
      exact ih (sigStep acc g) hf'

theorem strongSignature_of_mem (findings : List SignatureFinding) (f : SignatureFinding)
    (hf : f ∈ findings) (hm : f.is_match = true) (hc : (9:ℚ)/10 ≤ f.confidence) :
    strongSignature findings = true := by
  obtain ⟨s, hs, hle⟩ := sigFold_mem findings none f hf hm
  simp only [strongSignature, highest_confidence_signature, hs]
  exact decide_eq_true (le_trans hc hle)

/-! ## Facts about round2 -/

theorem round2_mono {x y : ℚ} (h : x ≤ y) : round2 x ≤ round2 y := by
  have h1 : round (x * 100) ≤ round (y * 100) := by
    rw [round_eq, round_eq]
    exact Int.floor_mono (by linarith)
  have h2 : ((round (x * 100) : ℤ) : ℚ) ≤ ((round (y * 100) : ℤ) : ℚ) := Int.cast_le.mpr h1
  unfold round2
  linarith

theorem round2_idem (x : ℚ) : round2 (round2 x) = round2 x := by
  unfold round2
  rw [div_mul_cancel₀ _ (by norm_num : (100:ℚ) ≠ 0), round_intCast]

theorem round2_nine_tenths : round2 ((9:ℚ)/10) = 9/10 := by norm_num [round2]

theorem round2_zero : round2 0 = 0 := by norm_num [round2]

theorem round2_one : round2 1 = 1 := by norm_num [round2]

/-! ## Bounds on the accumulation and decision phases -/

theorem ifLikelihood_nonneg (r : DetectionResult) : 0 ≤ ifLikelihood r := by
  unfold ifLikelihood
  by_cases h : r.verdict = "anomaly"
  · simp only [h, if_true]
    by_cases h2 : r.score < AI_SCORE_THRESHOLD_IF <;> simp only [h2, if_true, if_false] <;> norm_num
  · simp [h]

theorem behavioralLikelihood_nonneg (r : DetectionResult) : 0 ≤ behavioralLikelihood r := by
  unfold behavioralLikelihood
  by_cases h : r.verdict = "anomaly"
  · simp only [h, if_true]
    by_cases h2 : AI_SCORE_THRESHOLD_AE_LSTM < r.score <;> simp only [h2, if_true, if_false] <;> norm_num
  · simp [h]

theorem ifChannelLikelihood_nonneg (r : Option DetectionResult) :
    0 ≤ ifChannelLikelihood r := by
  cases r with
  | none => simp [ifChannelLikelihood]
  | some r => exact ifLikelihood_nonneg r

theorem behavioralChannelLikelihood_nonneg (r : Option DetectionResult) :
    0 ≤ behavioralChannelLikelihood r := by
  cases r with
  | none => simp [behavioralChannelLikelihood]
  | some r => exact behavioralLikelihood_nonneg r

theorem sigContribution_fst_nonneg (findings : List SignatureFinding) :
    0 ≤ (sigContribution findings).1 := by
  cases h : highest_confidence_signature findings with
  | none => simp [sigContribution, h]
  | some s =>
    simp only [sigContribution, h]
    by_cases hc : (9:ℚ)/10 ≤ s.confidence
    · simp only [hc, if_true]
      unfold WEIGHT_SIGNATURE
      nlinarith
    · simp [hc]

theorem accumulate_fst_nonneg (ifr bar : Option DetectionResult)
    (findings : List SignatureFinding) : 0 ≤ (accumulate ifr bar findings).1 := by
  have h1 := sigContribution_fst_nonneg findings
  have h2 := ifChannelLikelihood_nonneg ifr
  have h3 := behavioralChannelLikelihood_nonneg bar
  unfold accumulate WEIGHT_ISOLATION_FOREST WEIGHT_BEHAVIORAL_AI
  simp only []
  nlinarith

theorem decidedConfidence_bounds (s : Bool) {fc : ℚ} (n : ℕ) (h0 : 0 ≤ fc) (h1 : fc ≤ 1) :
    0 ≤ decidedConfidence s fc n ∧ decidedConfidence s fc n ≤ 1 := by
  unfold decidedConfidence
  split
  · exact ⟨le_trans h0 (le_max_left _ _), max_le h1 (by norm_num)⟩
  · split
    · exact ⟨h0, h1⟩
    · split
      · exact ⟨le_trans h0 (le_max_left _ _), max_le h1 (by norm_num)⟩
      · exact ⟨h0, h1⟩

theorem decidedConfidence_mono (s : Bool) {fc fc' : ℚ} {n n' : ℕ}
    (hfc : fc ≤ fc') (hn : n ≤ n') :
    decidedConfidence s fc n ≤ decidedConfidence s fc' n' := by
  unfold decidedConfidence
  cases s with
  | true => simpa using max_le_max hfc le_rfl
  | false =>
    simp only [Bool.false_eq_true, if_false]
    by_cases h1 : FINAL_VERDICT_THRESHOLD_THREAT < fc
    · have h2 : FINAL_VERDICT_THRESHOLD_THREAT < fc' := lt_of_lt_of_le h1 hfc
      simp only [h1, h2, if_true]
      exact hfc
    · by_cases h2 : FINAL_VERDICT_THRESHOLD_THREAT < fc'
      · simp only [h1, h2, if_true, if_false]
        have hfc65 : fc ≤ FINAL_VERDICT_THRESHOLD_THREAT := not_lt.mp h1
        have hhalf : (1:ℚ)/2 ≤ fc' := by
          unfold FINAL_VERDICT_THRESHOLD_THREAT at h2
          linarith
        split
        · exact max_le (le_trans hfc65 h2.le) hhalf
        · exact hfc
      · simp only [h1, h2, if_false]
        by_cases h3 : 2 ≤ n
        · have h4 : 2 ≤ n' := le_trans h3 hn
          simp only [h3, h4, if_true]
          exact max_le_max hfc le_rfl
        · by_cases h4 : 2 ≤ n'
          · simp only [h3, h4, if_true, if_false]
            exact le_trans hfc (le_max_left _ _)
          · simp only [h3, h4, if_false]
            exact hfc

end ZeroHack

namespace ZeroHack

/-- C2: for every input to the aggregate operation in which some signature
finding is a match with confidence ≥ 0.9 and both anomaly channels are absent
or have verdict `normal`, the returned verdict is `THREAT` with confidence
≥ 0.9. -/
theorem aggregate_strong_signature_override
    (ifr bar : Option DetectionResult) (findings : List SignatureFinding)
    (hstrong : ∃ f ∈ findings, f.is_match = true ∧ (9:ℚ)/10 ≤ f.confidence)
    (hif : ifr = none ∨ ∃ r, ifr = some r ∧ r.verdict = "normal")
    (hbar : bar = none ∨ ∃ r, bar = some r ∧ r.verdict = "normal") :
    (aggregate_results ifr bar findings).final_verdict = "THREAT" ∧
    (9:ℚ)/10 ≤ (aggregate_results ifr bar findings).confidence := by
  obtain ⟨f, hf, hm, hc⟩ := hstrong
  have hstrongB : strongSignature findings = true := strongSignature_of_mem findings f hf hm hc
  constructor
  · simp only [aggregate_results, decidedVerdict, hstrongB, if_true]
  · simp only [aggregate_results, decidedConfidence, hstrongB, if_true]
    calc (9:ℚ)/10 = round2 ((9:ℚ)/10) := round2_nine_tenths.symm
      _ ≤ round2 (max (min (accumulate ifr bar findings).1 1) ((9:ℚ)/10)) :=
          round2_mono (le_max_right _ _)

/-- An aggregator input holding one categorical (confidence 1.0) signature
finding, as produced by the signature rules. -/
def strongFindingExample : SignatureFinding :=
  { is_match := true, confidence := 1, rule_id := "SSH_BRUTE_FORCE",
    explanation := "Multiple failed SSH logins from 1.2.3.4." }

/-- Witness for C2 at a concrete input: one confidence-1.0 finding, both
channels absent. -/
theorem aggregate_strong_signature_override_witness :
    (aggregate_results none none [strongFindingExample]).final_verdict = "THREAT" ∧
    (9:ℚ)/10 ≤ (aggregate_results none none [strongFindingExample]).confidence :=
  aggregate_strong_signature_override none none [strongFindingExample]
    ⟨strongFindingExample, List.mem_singleton.mpr rfl, rfl, by norm_num [strongFindingExample]⟩
    (Or.inl rfl) (Or.inl rfl)

/-- C5: for every combination of detector results and signature findings, the
confidence of the returned AggregatedVerdict lies in [0,1] and is a fixed
point of rounding to 2 decimal places. -/
theorem aggregate_confidence_in_unit_interval
    (ifr bar : Option DetectionResult) (findings : List SignatureFinding) :
    0 ≤ (aggregate_results ifr bar findings).confidence ∧
    (aggregate_results ifr bar findings).confidence ≤ 1 ∧
    round2 (aggregate_results ifr bar findings).confidence
      = (aggregate_results ifr bar findings).confidence := by
  have hacc := accumulate_fst_nonneg ifr bar findings
  have hfc0 : 0 ≤ min (accumulate ifr bar findings).1 1 := le_min hacc (by norm_num)
  have hfc1 : min (accumulate ifr bar findings).1 1 ≤ 1 := min_le_right _ _
  obtain ⟨hd0, hd1⟩ :=
    decidedConfidence_bounds (strongSignature findings)
      (accumulate ifr bar findings).2 hfc0 hfc1
  refine ⟨?_, ?_, ?_⟩
  · simp only [aggregate_results]
    calc (0:ℚ) = round2 0 := round2_zero.symm
      _ ≤ _ := round2_mono hd0
  · simp only [aggregate_results]
    calc round2 _ ≤ round2 1 := round2_mono hd1
      _ = 1 := round2_one
  · simp only [aggregate_results]
    exact round2_idem _

theorem channelSignal_le_one (r : Option DetectionResult) : channelSignal r ≤ 1 := by
  cases r with
  | none => simp [channelSignal]
  | some r =>
    unfold channelSignal
    by_cases h : r.verdict = "anomaly" <;> simp [h]

theorem channelSignal_of_if_lt {r1 r2 : Option DetectionResult}
    (h : ifChannelLikelihood r1 < ifChannelLikelihood r2) :
    channelSignal r1 ≤ channelSignal r2 := by
  cases r2 with
  | none =>
    exact absurd (lt_of_le_of_lt (ifChannelLikelihood_nonneg r1) h) (by simp [ifChannelLikelihood])
  | some r =>
    by_cases hv : r.verdict = "anomaly"
    · calc channelSignal r1 ≤ 1 := channelSignal_le_one r1
        _ = channelSignal (some r) := by simp [channelSignal, hv]
    · have : ifChannelLikelihood (some r) = 0 := by simp [ifChannelLikelihood, ifLikelihood, hv]
      rw [this] at h
      exact absurd (lt_of_le_of_lt (ifChannelLikelihood_nonneg r1) h) (lt_irrefl 0)

theorem channelSignal_of_behavioral_lt {r1 r2 : Option DetectionResult}
    (h : behavioralChannelLikelihood r1 < behavioralChannelLikelihood r2) :
    channelSignal r1 ≤ channelSignal r2 := by
  cases r2 with
  | none =>
    exact absurd (lt_of_le_of_lt (behavioralChannelLikelihood_nonneg r1) h)
      (by simp [behavioralChannelLikelihood])
  | some r =>
    by_cases hv : r.verdict = "anomaly"
    · calc channelSignal r1 ≤ 1 := channelSignal_le_one r1
        _ = channelSignal (some r) := by simp [channelSignal, hv]
    · have : behavioralChannelLikelihood (some r) = 0 := by
        simp [behavioralChannelLikelihood, behavioralLikelihood, hv]
      rw [this] at h
      exact absurd (lt_of_le_of_lt (behavioralChannelLikelihood_nonneg r1) h) (lt_irrefl 0)

/-- C6: increasing the threat likelihood of one anomaly channel (0 when not
`anomaly`, 0.6 when `anomaly`, 0.8 when `anomaly` beyond the stricter
boundary), holding everything else fixed, never decreases the returned
confidence.  First conjunct: the Isolation-Forest channel; second: the
behavioral channel. -/
theorem aggregate_channel_monotonicity :
    (∀ (r1 r2 bar : Option DetectionResult) (findings : List SignatureFinding),
      ifChannelLikelihood r1 < ifChannelLikelihood r2 →
      (aggregate_results r1 bar findings).confidence
        ≤ (aggregate_results r2 bar findings).confidence) ∧
    (∀ (ifr r1 r2 : Option DetectionResult) (findings : List SignatureFinding),
      behavioralChannelLikelihood r1 < behavioralChannelLikelihood r2 →
      (aggregate_results ifr r1 findings).confidence
        ≤ (aggregate_results ifr r2 findings).confidence) := by
  constructor
  · intro r1 r2 bar findings h
    have hfc : (accumulate r1 bar findings).1 ≤ (accumulate r2 bar findings).1 := by
      unfold accumulate WEIGHT_ISOLATION_FOREST
      simp only []
      nlinarith [h.le]
    have hn : (accumulate r1 bar findings).2 ≤ (accumulate r2 bar findings).2 := by
      unfold accumulate
      simp only []
      have := channelSignal_of_if_lt h
      omega
    simp only [aggregate_results]
    exact round2_mono
      (decidedConfidence_mono (strongSignature findings) (min_le_min_right 1 hfc) hn)
  · intro ifr r1 r2 findings h
    have hfc : (accumulate ifr r1 findings).1 ≤ (accumulate ifr r2 findings).1 := by
      unfold accumulate WEIGHT_BEHAVIORAL_AI
      simp only []
      nlinarith [h.le]
    have hn : (accumulate ifr r1 findings).2 ≤ (accumulate ifr r2 findings).2 := by
      unfold accumulate
      simp only []
      have := channelSignal_of_behavioral_lt h
      omega
    simp only [aggregate_results]
    exact round2_mono
      (decidedConfidence_mono (strongSignature findings) (min_le_min_right 1 hfc) hn)

/-- Witness for C6 at a concrete input: raising the Isolation-Forest channel
from absent (likelihood 0) to an anomaly past the stricter boundary
(likelihood 0.8) does not decrease the confidence. -/
theorem aggregate_channel_monotonicity_witness :
    (aggregate_results none none []).confidence
      ≤ (aggregate_results (some ifScenarioResult) none []).confidence :=
  aggregate_channel_monotonicity.1 none (some ifScenarioResult) none []
    (by norm_num [ifChannelLikelihood, ifLikelihood, ifScenarioResult, AI_SCORE_THRESHOLD_IF])

end ZeroHack

namespace ZeroHack

/-! ## Signature engine (src/backend/services/signature_engine.py) -/

def SSH_BRUTE_FORCE_PORT : ℤ := 22

def SSH_BRUTE_FORCE_ATTEMPTS_THRESHOLD : ℕ := 5

def SSH_BRUTE_FORCE_WINDOW_SECONDS : ℚ := 60

/-- One connection event as seen by the signature engine (timestamps as epoch
seconds). -/
structure SigEvent where
  timestamp : ℚ
  source_ip : String
  dest_ip : String
  dest_port : ℤ
deriving DecidableEq

/-- Key order of a Python dict built by repeated insertion: first-appearance
order, duplicates dropped. -/
def insertionOrderedKeys (l : List String) : List String :=
  l.foldl (fun acc k => if k ∈ acc then acc else acc ++ [k]) []

/-- The events `check_ssh_brute_force` collects: those with
`dest_port == SSH_BRUTE_FORCE_PORT` (line 43). -/
def sshAttempts (session : List SigEvent) : List SigEvent :=
  session.filter (fun e => e.dest_port = SSH_BRUTE_FORCE_PORT)

/-- The `attempts_by_ip_port` grouping (lines 40-45): timestamps of port-22
events keyed by source IP (the port component of the key is constant), groups
in dict insertion order, timestamps in arrival order. -/
def sshGroups (session : List SigEvent) : List (String × List ℚ) :=
  let attempts := sshAttempts session
  (insertionOrderedKeys (attempts.map (·.source_ip))).map
    (fun ip => (ip, (attempts.filter (fun e => e.source_ip = ip)).map (·.timestamp)))

/-- Timestamps collected by the inner window loop (lines 59-68) started at
index `i`: consecutive entries from `i` not later than `timestamps[i] + 60`
(the loop breaks at the first later entry). -/
def windowTimestampsAt (ts : List ℚ) (i : ℕ) : List ℚ :=
  (ts.drop i).takeWhile (fun t => decide (t ≤ ts.getD i 0 + SSH_BRUTE_FORCE_WINDOW_SECONDS))

/-- `attempts_in_window` for the window starting at index `i`. -/
def windowCountAt (ts : List ℚ) (i : ℕ) : ℕ :=
  (windowTimestampsAt ts i).length

/-- The first window start index whose count reaches the threshold — the
outer loop (lines 55-93) breaks at the first qualifying window. -/
def firstQualifyingStart (ts : List ℚ) : Option ℕ :=
  (List.range (ts.length - SSH_BRUTE_FORCE_ATTEMPTS_THRESHOLD + 1)).find?
    (fun i => decide (SSH_BRUTE_FORCE_ATTEMPTS_THRESHOLD ≤ windowCountAt ts i))

/-- The finding dict appended on lines 72-89 for a qualifying window. -/
def sshFinding (ip : String) (ts : List ℚ) (i : ℕ) : SignatureFinding :=
  let window := windowTimestampsAt ts i
  { is_match := true, confidence := 1, rule_id := "SSH_BRUTE_FORCE",
    explanation := "Potential SSH brute-force from " ++ ip ++ " to port 22.",
    details := some { source_ip := ip, dest_port := SSH_BRUTE_FORCE_PORT,
                      attempt_timestamps := window,
                      observed_attempts_in_burst := window.length } }

/-- Findings contributed by one (source IP, port 22) group: nothing when the
group has fewer than the threshold attempts (line 48); otherwise the
timestamps are sorted ascending (line 51) and the first qualifying window, if
any, yields the sole finding for the group (break on line 93). -/
def sshGroupFindings (ip : String) (tsRaw : List ℚ) : List SignatureFinding :=
  if tsRaw.length < SSH_BRUTE_FORCE_ATTEMPTS_THRESHOLD then []
  else
    let ts := List.insertionSort (· ≤ ·) tsRaw
    match firstQualifyingStart ts with
    | some i => [sshFinding ip ts i]
    | none => []

/-- `check_ssh_brute_force` (signature_engine.py lines 19-96). -/
def check_ssh_brute_force (session : List SigEvent) : List SignatureFinding :=
  ((sshGroups session).map (fun g => sshGroupFindings g.1 g.2)).flatten

theorem insertionOrderedKeys_const_aux (k : String) (l : List String)
    (h : ∀ x ∈ l, x = k) :
    l.foldl (fun acc x => if x ∈ acc then acc else acc ++ [x]) [k] = [k] := by
  induction l with
  | nil => rfl
  | cons x l ih =>
    have hx : x = k := h x (List.mem_cons_self _ _)
    simp only [List.foldl_cons, hx, List.mem_singleton, if_pos rfl]
    exact ih (fun y hy => h y (List.mem_cons_of_mem _ hy))

theorem insertionOrderedKeys_const (l : List String) (k : String) (hne : l ≠ [])
    (h : ∀ x ∈ l, x = k) : insertionOrderedKeys l = [k] := by
  cases l with
  | nil => exact absurd rfl hne
  | cons x l =>
    have hx : x = k := h x (List.mem_cons_self _ _)
    unfold insertionOrderedKeys
    simp only [List.foldl_cons, List.not_mem_nil, if_neg (List.not_mem_nil x),
      List.nil_append, hx]
    exact insertionOrderedKeys_const_aux k l (fun y hy => h y (List.mem_cons_of_mem _ hy))

theorem sshGroups_snd_length_le (session : List SigEvent) :
    ∀ g ∈ sshGroups session, g.2.length ≤ session.length := by
  intro g hg
  obtain ⟨ip, -, rfl⟩ := List.mem_map.mp hg
  calc (((sshAttempts session).filter (fun e => e.source_ip = ip)).map (·.timestamp)).length
      = ((sshAttempts session).filter (fun e => e.source_ip = ip)).length :=
        List.length_map _ _
    _ ≤ (sshAttempts session).length := List.length_filter_le _ _
    _ ≤ session.length := List.length_filter_le _ _

theorem check_ssh_brute_force_nil_of_short (session : List SigEvent)
    (h : session.length < SSH_BRUTE_FORCE_ATTEMPTS_THRESHOLD) :
    check_ssh_brute_force session = [] := by
  unfold check_ssh_brute_force
  rw [List.flatten_eq_nil_iff]
  intro x hx
  obtain ⟨g, hg, rfl⟩ := List.mem_map.mp hx
  have hlen : g.2.length < SSH_BRUTE_FORCE_ATTEMPTS_THRESHOLD :=
    lt_of_le_of_lt (sshGroups_snd_length_le session g hg) h
  unfold sshGroupFindings
  rw [if_pos hlen]

end ZeroHack

namespace ZeroHack

theorem sshGroups_all_same (session : List SigEvent) (ip : String)
    (hne : session ≠ [])
    (hport : ∀ e ∈ session, e.dest_port = 22)
    (hip : ∀ e ∈ session, e.source_ip = ip) :
    sshGroups session = [(ip, session.map (·.timestamp))] := by
  have hatt : sshAttempts session = session := by
    unfold sshAttempts SSH_BRUTE_FORCE_PORT
    rw [List.filter_eq_self]
    intro e he
    simpa using hport e he
  have hfil : session.filter (fun e => e.source_ip = ip) = session := by
    rw [List.filter_eq_self]
    intro e he
    simpa using hip e he
  have hkeys : insertionOrderedKeys (session.map (·.source_ip)) = [ip] := by
    apply insertionOrderedKeys_const
    · intro h
      exact hne (List.map_eq_nil_iff.mp h)
    · intro x hx
      obtain ⟨e, he, rfl⟩ := List.mem_map.mp hx
      exact hip e he
  simp only [sshGroups, hatt, hkeys, List.map_cons, List.map_nil, hfil]

/-- C3: a Session of exactly 5 events (the configured attempt threshold) with
one source IP, destination port 22, and all timestamps within a 60-second
window makes `check_ssh_brute_force` return exactly one finding, with rule id
`SSH_BRUTE_FORCE`; with only 4 such attempts it returns the empty list. -/
theorem ssh_brute_force_threshold :
    (∀ (session : List SigEvent) (ip : String),
      session.length = 5 →
      (∀ e ∈ session, e.dest_port = 22) →
      (∀ e ∈ session, e.source_ip = ip) →
      (∀ e1 ∈ session, ∀ e2 ∈ session, e2.timestamp - e1.timestamp ≤ 60) →
      ∃ f, check_ssh_brute_force session = [f] ∧ f.rule_id = "SSH_BRUTE_FORCE") ∧
    (∀ (session : List SigEvent) (ip : String),
      session.length = 4 →
      (∀ e ∈ session, e.dest_port = 22) →
      (∀ e ∈ session, e.source_ip = ip) →
      check_ssh_brute_force session = []) := by
  constructor
  · intro session ip h5 hport hip hwin
    have hne : session ≠ [] := by
      intro h
      rw [h] at h5
      exact absurd h5 (by norm_num)
    have hgroups := sshGroups_all_same session ip hne hport hip
    set ts := session.map (·.timestamp) with hts
    have hts5 : ts.length = 5 := by rw [hts, List.length_map]; exact h5
    set ts' := List.insertionSort (· ≤ ·) ts with hts'
    have hlen' : ts'.length = 5 := by
      rw [hts', (List.perm_insertionSort _ ts).length_eq]; exact hts5
    have hmem' : ∀ t ∈ ts', ∃ e ∈ session, e.timestamp = t := by
      intro t ht
      have : t ∈ ts := (List.perm_insertionSort _ ts).mem_iff.mp ht
      obtain ⟨e, he, rfl⟩ := List.mem_map.mp this
      exact ⟨e, he, rfl⟩
    have hne' : ts' ≠ [] := by
      intro h
      rw [h] at hlen'
      exact absurd hlen' (by norm_num)
    have hhead : ts'.getD 0 0 ∈ ts' := by
      cases hcase : ts' with
      | nil => exact absurd hcase hne'
      | cons a t => simp [List.getD]
    have hwin' : ∀ t ∈ ts', t ≤ ts'.getD 0 0 + SSH_BRUTE_FORCE_WINDOW_SECONDS := by
      intro t ht
      obtain ⟨e2, he2, he2t⟩ := hmem' t ht
      obtain ⟨e1, he1, he1t⟩ := hmem' _ hhead
      have := hwin e1 he1 e2 he2
      unfold SSH_BRUTE_FORCE_WINDOW_SECONDS
      rw [← he2t, ← he1t]
      linarith
    have hcount : windowCountAt ts' 0 = 5 := by
      unfold windowCountAt windowTimestampsAt
      rw [List.drop_zero, List.takeWhile_eq_self_iff.mpr]
      · exact hlen'
      · intro t ht
        exact decide_eq_true (hwin' t ht)
    have hfind : firstQualifyingStart ts' = some 0 := by
      unfold firstQualifyingStart SSH_BRUTE_FORCE_ATTEMPTS_THRESHOLD
      rw [hlen']
      norm_num
      exact hcount.ge
    refine ⟨sshFinding ip ts' 0, ?_, rfl⟩
    unfold check_ssh_brute_force
    rw [hgroups]
    simp only [List.map_cons, List.map_nil, List.flatten, List.append_nil]
    unfold sshGroupFindings
    rw [if_neg (by rw [hts5]; unfold SSH_BRUTE_FORCE_ATTEMPTS_THRESHOLD; norm_num)]
    simp only [← hts', hfind]
  · intro session ip h4 hport hip
    apply check_ssh_brute_force_nil_of_short
    rw [h4]
    unfold SSH_BRUTE_FORCE_ATTEMPTS_THRESHOLD
    norm_num

end ZeroHack

namespace ZeroHack

/-- A port-22 connection attempt from a fixed source, at the given time. -/
def sshExampleEvent (t : ℚ) : SigEvent :=
  { timestamp := t, source_ip := "10.0.0.1", dest_ip := "10.0.0.5", dest_port := 22 }

/-- Five attempts inside one 60-second window. -/
def sshSession5 : List SigEvent :=
  [sshExampleEvent 0, sshExampleEvent 10, sshExampleEvent 20,
   sshExampleEvent 30, sshExampleEvent 40]

/-- Four attempts inside one 60-second window. -/
def sshSession4 : List SigEvent :=
  [sshExampleEvent 0, sshExampleEvent 10, sshExampleEvent 20, sshExampleEvent 30]

/-- Witness for C3 at concrete sessions of 5 and 4 attempts. -/
theorem ssh_brute_force_threshold_witness :
    (∃ f, check_ssh_brute_force sshSession5 = [f] ∧ f.rule_id = "SSH_BRUTE_FORCE") ∧
    check_ssh_brute_force sshSession4 = [] :=
  ⟨ssh_brute_force_threshold.1 sshSession5 "10.0.0.1" rfl
      (by intro e he; fin_cases he <;> rfl)
      (by intro e he; fin_cases he <;> rfl)
      (by intro e1 h1 e2 h2; fin_cases h1 <;> fin_cases h2 <;>
        norm_num [sshExampleEvent, sshSession5]),
   ssh_brute_force_threshold.2 sshSession4 "10.0.0.1" rfl
      (by intro e he; fin_cases he <;> rfl)
      (by intro e he; fin_cases he <;> rfl)⟩

end ZeroHack

namespace ZeroHack

/-! ## Detector wrappers: artifact state, hot-reload and predict

`IsolationForestDetector` (src/Isolation_forest.py lines 211-303),
`AutoencoderDetector` (src/autoencoder_train_test.py lines 210-321) and
`LSTMDETector` (src/backend/services/lstm_train_test.py lines 256-365).
The externally-trained artifacts (sklearn/keras models and scalers) are
opaque to this repository and are modelled as function-valued records; the
file system visible to one `predict` call is a record of the existence,
modification time and load outcome of the artifact files. -/

/-- `np.mean` of a vector (0 on empty input, which no claim exercises). -/
def mean (l : List ℚ) : ℚ := l.sum / l.length

/-- A fitted feature scaler: `transform` maps each row through the fitted map,
raising (`ok = false`) on shape mismatch. -/
structure Scaler where
  rowFun : List ℚ → List ℚ
  ok : List (List ℚ) → Bool

/-- `scaler.transform(X)`: per-row map, or an exception. -/
def Scaler.transform (s : Scaler) (rows : List (List ℚ)) : Option (List (List ℚ)) :=
  if s.ok rows then some (rows.map s.rowFun) else none

/-- A loaded Isolation-Forest model: `decision_function` scores and
`predict` labels per row (`none` = the call raised). -/
structure IFModel where
  decisionFunction : List (List ℚ) → Option (List ℚ)
  outlierPred : List (List ℚ) → Option (List ℤ)

/-- Mutable state of `IsolationForestDetector`. -/
structure IFState where
  model : Option IFModel
  scaler : Option Scaler
  model_last_loaded_time : ℚ

/-- What the file system offers an Isolation-Forest reload: file existence,
the model file's mtime, and the artifact pair `joblib.load` would produce
(`none` = loading raised). -/
structure IFFiles where
  modelExists : Bool
  scalerExists : Bool
  modelMtime : ℚ
  load : Option (IFModel × Scaler)

/-- `IsolationForestDetector._load_model` (lines 232-245): returns untouched
when either file is missing; on a load exception sets model and scaler to
`None` (the `except` branch); on success installs the new pair and records
the mtime. -/
def ifLoadModel (fs : IFFiles) (st : IFState) : IFState :=
  if fs.modelExists = false ∨ fs.scalerExists = false then st
  else
    match fs.load with
    | some ms =>
        { model := some ms.1, scaler := some ms.2, model_last_loaded_time := fs.modelMtime }
    | none => { st with model := none, scaler := none }

/-- `IsolationForestDetector._check_and_reload_model` (lines 220-230):
`getmtime` raising (file absent) is swallowed; a newer mtime triggers
`_load_model`. -/
def ifCheckAndReload (fs : IFFiles) (st : IFState) : IFState :=
  if fs.modelExists = false then st
  else if st.model_last_loaded_time < fs.modelMtime then ifLoadModel fs st
  else st

/-- Names bound at module level by src/config.py (imports, path constants,
log level, and the `get_logger` function). -/
def configModuleAttrs : List String :=
  ["os", "logging", "DEFAULT_DATA_DIR", "DATA_DIR", "DEFAULT_MODELS_DIR", "MODELS_DIR",
   "IF_TRAIN_FILE", "IF_TEST_FILE", "IF_PROCESSED_FILE", "IF_MODEL_PATH", "IF_SCALER_PATH",
   "AE_TRAIN_FILES", "AE_TEST_FILE", "AE_MODEL_PATH", "AE_ENCODER_MODEL_PATH",
   "AE_SCALER_PATH", "LSTM_TRAIN_FILE", "LSTM_TEST_FILE", "LSTM_MODEL_PATH",
   "LSTM_SCALER_PATH", "EVAL_MONDAY_TEST_FILE", "EVAL_TUESDAY_TEST_FILE",
   "EVAL_WEDNESDAY_TEST_FILE", "LOG_LEVEL", "get_logger"]

/-- The Python attribute chain `config.Aggregator.AI_SCORE_THRESHOLD_IF` read
by `IsolationForestDetector.predict` (line 289): its value when `config`
defines an `Aggregator` attribute, `none` (AttributeError) when it does not. -/
def configAggregatorThresholdIF : Option ℚ :=
  if configModuleAttrs.contains "Aggregator" then some AI_SCORE_THRESHOLD_IF else none

/-- The error dict the detectors return. -/
def errorResult (msg : String) : DetectionResult :=
  { verdict := "error", score := 0, explanation := msg }

/-- Body of `IsolationForestDetector.predict` after the loaded-artifact guard
(lines 265-303); every exception inside the `try` blocks, including the
AttributeError raised by the `config.Aggregator` lookup, becomes an `error`
result. -/
def ifPredictLoaded (m : IFModel) (s : Scaler) (input : List (List ℚ)) : DetectionResult :=
  if input.isEmpty then errorResult "Input data is empty."
  else
    match s.transform input with
    | none => errorResult "Error scaling input data."
    | some xScaled =>
      match m.decisionFunction xScaled, m.outlierPred xScaled with
      | some scores, some _ =>
        let avgScore := mean scores
        match configAggregatorThresholdIF with
        | some thr =>
          if avgScore < thr then
            { verdict := "anomaly", score := avgScore,
              explanation :=
                "Isolation Forest average score below threshold, indicating potential anomaly." }
          else
            { verdict := "normal", score := avgScore,
              explanation :=
                "Isolation Forest average score above threshold, indicating normal behavior." }
        | none =>
            errorResult "Error during prediction: module config has no attribute Aggregator"
      | _, _ => errorResult "Error during prediction."

/-- `IsolationForestDetector.predict` (lines 247-303): reload check, then the
loaded-artifact guard, then the scoring body. -/
def ifPredict (fs : IFFiles) (st : IFState) (input : List (List ℚ)) :
    IFState × DetectionResult :=
  let st1 := ifCheckAndReload fs st
  match st1.model, st1.scaler with
  | some m, some s => (st1, ifPredictLoaded m s input)
  | _, _ => (st1, errorResult "Model/scaler not loaded.")

/-- A loaded Keras reconstruction model scoring per-row batches (Autoencoder). -/
structure AEModel where
  reconstruct : List (List ℚ) → Option (List (List ℚ))

/-- Mutable state of `AutoencoderDetector`. -/
structure AEState where
  model : Option AEModel
  scaler : Option Scaler
  threshold : Option ℚ
  threshold_percentile_dynamic : ℚ
  model_last_loaded_time : ℚ

/-- File-system view of an Autoencoder reload. -/
structure AEFiles where
  modelExists : Bool
  scalerExists : Bool
  modelMtime : ℚ
  load : Option (AEModel × Scaler)

/-- `AutoencoderDetector._load_model_and_scaler` (lines 248-262). -/
def aeLoadModel (fs : AEFiles) (st : AEState) : AEState :=
  if fs.modelExists = false ∨ fs.scalerExists = false then st
  else
    match fs.load with
    | some ms =>
        { st with model := some ms.1, scaler := some ms.2,
                  model_last_loaded_time := fs.modelMtime }
    | none => { st with model := none, scaler := none }

/-- `AutoencoderDetector._check_and_reload_model` (lines 237-246). -/
def aeCheckAndReload (fs : AEFiles) (st : AEState) : AEState :=
  if fs.modelExists = false then st
  else if st.model_last_loaded_time < fs.modelMtime then aeLoadModel fs st
  else st

/-- Per-row reconstruction MSE: `np.mean(np.square(X - recon), axis=1)` for
one row. -/
def rowMSE (x y : List ℚ) : ℚ :=
  (((x.zip y).map (fun p => (p.1 - p.2) ^ 2)).sum) / x.length

/-- `np.percentile(a, q)` with the default linear interpolation. -/
def percentile (l : List ℚ) (q : ℚ) : ℚ :=
  let s := List.insertionSort (· ≤ ·) l
  let n := s.length
  if n = 0 then 0
  else
    let pos := q / 100 * ((n : ℚ) - 1)
    let i := (Int.floor pos).toNat
    let frac := pos - (Int.floor pos : ℤ)
    let lo := s.getD i 0
    let hi := s.getD (min (i + 1) (n - 1)) 0
    lo + frac * (hi - lo)

/-- The error dict of the Autoencoder detector (carries its model type). -/
def aeError (msg : String) : DetectionResult :=
  { verdict := "error", score := 0, explanation := msg, model_type := some "Autoencoder" }

/-- Body of `AutoencoderDetector.predict` after the loaded-artifact guard
(lines 286-321). -/
def aePredictLoaded (threshold : Option ℚ) (percDyn : ℚ) (m : AEModel) (s : Scaler)
    (input : List (List ℚ)) : DetectionResult :=
  if input.isEmpty then aeError "Input data is empty."
  else
    match s.transform input with
    | none => aeError "Error scaling input data."
    | some xScaled =>
      match m.reconstruct xScaled with
      | none => aeError "Error during prediction."
      | some recon =>
        let msePerSample := (xScaled.zip recon).map (fun p => rowMSE p.1 p.2)
        let avgMse := mean msePerSample
        let currentThreshold :=
          match threshold with
          | some t => t
          | none => percentile msePerSample percDyn
        if currentThreshold < avgMse then
          { verdict := "anomaly", score := avgMse,
            explanation := "Autoencoder MSE exceeds threshold, indicating potential anomaly.",
            model_type := some "Autoencoder" }
        else
          { verdict := "normal", score := avgMse,
            explanation := "Autoencoder MSE within threshold, indicating normal behavior.",
            model_type := some "Autoencoder" }

/-- `AutoencoderDetector.predict` (lines 269-321). -/
def aePredict (fs : AEFiles) (st : AEState) (input : List (List ℚ)) :
    AEState × DetectionResult :=
  let st1 := aeCheckAndReload fs st
  match st1.model, st1.scaler with
  | some m, some s =>
      (st1, aePredictLoaded st1.threshold st1.threshold_percentile_dynamic m s input)
  | _, _ => (st1, aeError "AE Model/scaler not loaded.")

end ZeroHack

namespace ZeroHack

/-- `TIMESTEPS` (lstm_train_test.py line 16). -/
def TIMESTEPS : ℕ := 10

/-- Successive chunks of `t` rows — the `reshape(-1, timesteps, num_features)`
view of a row list whose length is a multiple of `t`. -/
def chunkRows (t : ℕ) (l : List (List ℚ)) : List (List (List ℚ)) :=
  if h : t = 0 ∨ l = [] then []
  else l.take t :: chunkRows t (l.drop t)
termination_by l.length
decreasing_by
  push_neg at h
  obtain ⟨ht, hl⟩ := h
  have h1 : 0 < l.length := List.length_pos.mpr hl
  have h2 : 0 < t := Nat.pos_of_ne_zero ht
  simp only [List.length_drop]
  omega

/-- `reshape_sequences` (lstm_train_test.py lines 98-115): `None` for an empty
batch or one shorter than `timesteps`; otherwise the first
`(len X / timesteps) * timesteps` rows chunked into windows of `timesteps`
rows, the remainder discarded. -/
def reshape_sequences (X : List (List ℚ)) (timesteps : ℕ) :
    Option (List (List (List ℚ))) :=
  if X.length = 0 then none
  else if X.length < timesteps then none
  else
    let numSequences := X.length / timesteps
    let cutPoint := numSequences * timesteps
    some (chunkRows timesteps (X.take cutPoint))

/-- A loaded Keras LSTM autoencoder scoring batches of sequences. -/
structure LSTMModel where
  reconstruct : List (List (List ℚ)) → Option (List (List (List ℚ)))

/-- Mutable state of `LSTMDETector`. -/
structure LSTMState where
  model : Option LSTMModel
  scaler : Option Scaler
  threshold : Option ℚ
  threshold_percentile_dynamic : ℚ
  timesteps : ℕ
  model_last_loaded_time : ℚ

/-- File-system view of an LSTM reload. -/
structure LSTMFiles where
  modelExists : Bool
  scalerExists : Bool
  modelMtime : ℚ
  load : Option (LSTMModel × Scaler)

/-- `LSTMDETector._load_model_and_scaler` (lines 287-301). -/
def lstmLoadModel (fs : LSTMFiles) (st : LSTMState) : LSTMState :=
  if fs.modelExists = false ∨ fs.scalerExists = false then st
  else
    match fs.load with
    | some ms =>
        { st with model := some ms.1, scaler := some ms.2,
                  model_last_loaded_time := fs.modelMtime }
    | none => { st with model := none, scaler := none }

/-- `LSTMDETector._check_and_reload_model` (lines 276-285). -/
def lstmCheckAndReload (fs : LSTMFiles) (st : LSTMState) : LSTMState :=
  if fs.modelExists = false then st
  else if st.model_last_loaded_time < fs.modelMtime then lstmLoadModel fs st
  else st

/-- Per-sequence reconstruction MSE:
`np.mean(np.square(X_seq - preds), axis=(1,2))` for one sequence. -/
def matMSE (x y : List (List ℚ)) : ℚ :=
  (((x.zip y).map (fun p => ((p.1.zip p.2).map (fun q => (q.1 - q.2) ^ 2)).sum)).sum)
    / ((x.map List.length).sum)

/-- The error dict of the LSTM detector (carries its model type). -/
def lstmError (msg : String) : DetectionResult :=
  { verdict := "error", score := 0, explanation := msg, model_type := some "LSTM" }

/-- Body of `LSTMDETector.predict` after the loaded-artifact guard
(lines 325-365). -/
def lstmPredictLoaded (threshold : Option ℚ) (percDyn : ℚ) (timesteps : ℕ)
    (m : LSTMModel) (s : Scaler) (input : List (List ℚ)) : DetectionResult :=
  if input.isEmpty then lstmError "Input data is empty."
  else
    match s.transform input with
    | none => lstmError "Error scaling input data."
    | some xScaled =>
      match reshape_sequences xScaled timesteps with
      | none => lstmError "Not enough data for sequences or reshaping error."
      | some xSeq =>
        if xSeq.length = 0 then lstmError "Not enough data for sequences or reshaping error."
        else
          match m.reconstruct xSeq with
          | none => lstmError "Error during prediction."
          | some recon =>
            let msePerSequence := (xSeq.zip recon).map (fun p => matMSE p.1 p.2)
            let avgMse := mean msePerSequence
            let currentThreshold :=
              match threshold with
              | some t => t
              | none => percentile msePerSequence percDyn
            if currentThreshold < avgMse then
              { verdict := "anomaly", score := avgMse,
                explanation :=
                  "LSTM MSE exceeds threshold, indicating potential anomaly in temporal patterns.",
                model_type := some "LSTM" }
            else
              { verdict := "normal", score := avgMse,
                explanation :=
                  "LSTM MSE within threshold, indicating normal temporal patterns.",
                model_type := some "LSTM" }

/-- `LSTMDETector.predict` (lines 308-365). -/
def lstmPredict (fs : LSTMFiles) (st : LSTMState) (input : List (List ℚ)) :
    LSTMState × DetectionResult :=
  let st1 := lstmCheckAndReload fs st
  match st1.model, st1.scaler with
  | some m, some s =>
      (st1, lstmPredictLoaded st1.threshold st1.threshold_percentile_dynamic st1.timesteps
        m s input)
  | _, _ => (st1, lstmError "LSTM Model/scaler not loaded.")

end ZeroHack

namespace ZeroHack

/-- C4: for each of the three detectors, a predict call made while no (model,
scaler) artifact is loaded after the reload check (file absent or load
failed) returns verdict `error`, never `normal` or `anomaly`. -/
theorem predict_requires_loaded_artifact :
    (∀ (fs : IFFiles) (st : IFState) (input : List (List ℚ)),
      ((ifCheckAndReload fs st).model = none ∨ (ifCheckAndReload fs st).scaler = none) →
      ((ifPredict fs st input).2).verdict = "error") ∧
    (∀ (fs : AEFiles) (st : AEState) (input : List (List ℚ)),
      ((aeCheckAndReload fs st).model = none ∨ (aeCheckAndReload fs st).scaler = none) →
      ((aePredict fs st input).2).verdict = "error") ∧
    (∀ (fs : LSTMFiles) (st : LSTMState) (input : List (List ℚ)),
      ((lstmCheckAndReload fs st).model = none ∨ (lstmCheckAndReload fs st).scaler = none) →
      ((lstmPredict fs st input).2).verdict = "error") := by
  refine ⟨?_, ?_, ?_⟩
  · intro fs st input h
    cases hm : (ifCheckAndReload fs st).model with
    | none => cases hs : (ifCheckAndReload fs st).scaler <;> simp [ifPredict, hm, hs, errorResult]
    | some m =>
      cases hs : (ifCheckAndReload fs st).scaler with
      | none => simp [ifPredict, hm, hs, errorResult]
      | some s => rcases h with h | h <;> simp_all
  · intro fs st input h
    cases hm : (aeCheckAndReload fs st).model with
    | none => cases hs : (aeCheckAndReload fs st).scaler <;> simp [aePredict, hm, hs, aeError]
    | some m =>
      cases hs : (aeCheckAndReload fs st).scaler with
      | none => simp [aePredict, hm, hs, aeError]
      | some s => rcases h with h | h <;> simp_all
  · intro fs st input h
    cases hm : (lstmCheckAndReload fs st).model with
    | none =>
      cases hs : (lstmCheckAndReload fs st).scaler <;> simp [lstmPredict, hm, hs, lstmError]
    | some m =>
      cases hs : (lstmCheckAndReload fs st).scaler with
      | none => simp [lstmPredict, hm, hs, lstmError]
      | some s => rcases h with h | h <;> simp_all

/-- A file system with no artifact files at all. -/
def ifFilesAbsent : IFFiles :=
  { modelExists := false, scalerExists := false, modelMtime := 0, load := none }

/-- A detector state that never managed a load. -/
def ifStateUnloaded : IFState :=
  { model := none, scaler := none, model_last_loaded_time := 0 }

def aeFilesAbsent : AEFiles :=
  { modelExists := false, scalerExists := false, modelMtime := 0, load := none }

def aeStateUnloaded : AEState :=
  { model := none, scaler := none, threshold := none, threshold_percentile_dynamic := 95,
    model_last_loaded_time := 0 }

def lstmFilesAbsent : LSTMFiles :=
  { modelExists := false, scalerExists := false, modelMtime := 0, load := none }

def lstmStateUnloaded : LSTMState :=
  { model := none, scaler := none, threshold := none, threshold_percentile_dynamic := 95,
    timesteps := TIMESTEPS, model_last_loaded_time := 0 }

/-- Witness for C4 at concrete unloaded states. -/
theorem predict_requires_loaded_artifact_witness :
    ((ifPredict ifFilesAbsent ifStateUnloaded [[1]]).2).verdict = "error" ∧
    ((aePredict aeFilesAbsent aeStateUnloaded [[1]]).2).verdict = "error" ∧
    ((lstmPredict lstmFilesAbsent lstmStateUnloaded [[1]]).2).verdict = "error" :=
  ⟨predict_requires_loaded_artifact.1 ifFilesAbsent ifStateUnloaded [[1]] (Or.inl rfl),
   predict_requires_loaded_artifact.2.1 aeFilesAbsent aeStateUnloaded [[1]] (Or.inl rfl),
   predict_requires_loaded_artifact.2.2 lstmFilesAbsent lstmStateUnloaded [[1]] (Or.inl rfl)⟩

/-- A scaler that accepts everything unchanged. -/
def dummyScaler : Scaler := { rowFun := id, ok := fun _ => true }

/-- A loadable Isolation-Forest model giving every row score 0 and label 1. -/
def dummyIFModel : IFModel :=
  { decisionFunction := fun rows => some (rows.map (fun _ => 0)),
    outlierPred := fun rows => some (rows.map (fun _ => 1)) }

/-- An Isolation-Forest detector state holding a loaded artifact. -/
def ifStateLoaded : IFState :=
  { model := some dummyIFModel, scaler := some dummyScaler, model_last_loaded_time := 0 }

/-- A file system whose model file was rewritten (newer mtime) but whose
artifacts fail to load. -/
def ifFilesFailingLoad : IFFiles :=
  { modelExists := true, scalerExists := true, modelMtime := 1, load := none }

/-- C7 counterexample: against a detector holding a previously loaded
artifact, a reload triggered by a newer mtime whose load raises does NOT
leave the previous artifact in place — it clears model and scaler and the
call returns `error` instead of proceeding. -/
theorem reload_failure_clears_artifact :
    ifStateLoaded.model ≠ none ∧ ifStateLoaded.scaler ≠ none ∧
    ifStateLoaded.model_last_loaded_time < ifFilesFailingLoad.modelMtime ∧
    ifFilesFailingLoad.load = none ∧
    (ifCheckAndReload ifFilesFailingLoad ifStateLoaded).model = none ∧
    (ifCheckAndReload ifFilesFailingLoad ifStateLoaded).scaler = none ∧
    ((ifPredict ifFilesFailingLoad ifStateLoaded [[1]]).2).verdict = "error" := by
  have h01 : (0:ℚ) < 1 := by norm_num
  refine ⟨by simp [ifStateLoaded], by simp [ifStateLoaded], ?_, rfl, ?_, ?_, ?_⟩
  · norm_num [ifStateLoaded, ifFilesFailingLoad]
  · simp [ifCheckAndReload, ifLoadModel, ifFilesFailingLoad, ifStateLoaded, h01]
  · simp [ifCheckAndReload, ifLoadModel, ifFilesFailingLoad, ifStateLoaded, h01]
  · simp [ifPredict, ifCheckAndReload, ifLoadModel, ifFilesFailingLoad, ifStateLoaded, h01,
      errorResult]

/-- C7 amended: a reload attempt that fails because a backing file is missing
leaves the detector state — hence the previous artifact — untouched; but a
triggered reload whose load raises clears the artifact pair, and the predict
call then returns `error` rather than proceeding against the previous
artifact.  Stated for the Isolation-Forest and LSTM detectors. -/
theorem reload_failure_behavior :
    (∀ (fs : IFFiles) (st : IFState),
      (fs.modelExists = false ∨ fs.scalerExists = false) →
      ifCheckAndReload fs st = st) ∧
    (∀ (fs : IFFiles) (st : IFState) (input : List (List ℚ)),
      fs.modelExists = true → fs.scalerExists = true →
      st.model_last_loaded_time < fs.modelMtime → fs.load = none →
      (ifCheckAndReload fs st).model = none ∧ (ifCheckAndReload fs st).scaler = none ∧
      ((ifPredict fs st input).2).verdict = "error") ∧
    (∀ (fs : LSTMFiles) (st : LSTMState),
      (fs.modelExists = false ∨ fs.scalerExists = false) →
      lstmCheckAndReload fs st = st) ∧
    (∀ (fs : LSTMFiles) (st : LSTMState) (input : List (List ℚ)),
      fs.modelExists = true → fs.scalerExists = true →
      st.model_last_loaded_time < fs.modelMtime → fs.load = none →
      (lstmCheckAndReload fs st).model = none ∧ (lstmCheckAndReload fs st).scaler = none ∧
      ((lstmPredict fs st input).2).verdict = "error") := by
  refine ⟨?_, ?_, ?_, ?_⟩
  · intro fs st h
    unfold ifCheckAndReload
    rcases h with h | h
    · rw [if_pos h]
    · by_cases hm : fs.modelExists = false
      · rw [if_pos hm]
      · rw [if_neg hm]
        by_cases ht : st.model_last_loaded_time < fs.modelMtime
        · rw [if_pos ht]
          unfold ifLoadModel
          rw [if_pos (Or.inr h)]
        · rw [if_neg ht]
  · intro fs st input hm hs ht hl
    have hcr : ifCheckAndReload fs st = { st with model := none, scaler := none } := by
      unfold ifCheckAndReload
      rw [if_neg (by simp [hm]), if_pos ht]
      unfold ifLoadModel
      rw [if_neg (by simp [hm, hs]), hl]
    refine ⟨by rw [hcr], by rw [hcr], ?_⟩
    simp [ifPredict, hcr, errorResult]
  · intro fs st h
    unfold lstmCheckAndReload
    rcases h with h | h
    · rw [if_pos h]
    · by_cases hm : fs.modelExists = false
      · rw [if_pos hm]
      · rw [if_neg hm]
        by_cases ht : st.model_last_loaded_time < fs.modelMtime
        · rw [if_pos ht]
          unfold lstmLoadModel
          rw [if_pos (Or.inr h)]
        · rw [if_neg ht]
  · intro fs st input hm hs ht hl
    have hcr : lstmCheckAndReload fs st = { st with model := none, scaler := none } := by
      unfold lstmCheckAndReload
      rw [if_neg (by simp [hm]), if_pos ht]
      unfold lstmLoadModel
      rw [if_neg (by simp [hm, hs]), hl]
    refine ⟨by rw [hcr], by rw [hcr], ?_⟩
    simp [lstmPredict, hcr, lstmError]

/-- A loadable LSTM model reconstructing its input exactly. -/
def dummyLSTMModel : LSTMModel := { reconstruct := fun seqs => some seqs }

/-- An LSTM detector state holding a loaded artifact. -/
def lstmStateLoaded : LSTMState :=
  { model := some dummyLSTMModel, scaler := some dummyScaler, threshold := some 1,
    threshold_percentile_dynamic := 95, timesteps := TIMESTEPS, model_last_loaded_time := 0 }

/-- An LSTM file system whose model file is newer but whose load raises. -/
def lstmFilesFailingLoad : LSTMFiles :=
  { modelExists := true, scalerExists := true, modelMtime := 1, load := none }

/-- Witness for the amended C7 at concrete states. -/
theorem reload_failure_behavior_witness :
    ifCheckAndReload ifFilesAbsent ifStateLoaded = ifStateLoaded ∧
    ((ifPredict ifFilesFailingLoad ifStateLoaded [[2]]).2).verdict = "error" ∧
    lstmCheckAndReload lstmFilesAbsent lstmStateLoaded = lstmStateLoaded ∧
    ((lstmPredict lstmFilesFailingLoad lstmStateLoaded [[2]]).2).verdict = "error" :=
  ⟨reload_failure_behavior.1 ifFilesAbsent ifStateLoaded (Or.inl rfl),
   (reload_failure_behavior.2.1 ifFilesFailingLoad ifStateLoaded [[2]] rfl rfl
      (by norm_num [ifStateLoaded, ifFilesFailingLoad]) rfl).2.2,
   reload_failure_behavior.2.2.1 lstmFilesAbsent lstmStateLoaded (Or.inl rfl),
   (reload_failure_behavior.2.2.2 lstmFilesFailingLoad lstmStateLoaded [[2]] rfl rfl
      (by norm_num [lstmStateLoaded, lstmFilesFailingLoad]) rfl).2.2⟩

/-- C10: with src/config.py as shipped, `config` has no `Aggregator`
attribute, and every Isolation-Forest predict call that reaches the verdict
computation with a loaded artifact and a non-empty, scalable batch returns
verdict `error` (the AttributeError is caught by the surrounding `except`). -/
theorem if_predict_error_under_shipped_config :
    configModuleAttrs.contains "Aggregator" = false ∧
    ∀ (fs : IFFiles) (st : IFState) (input : List (List ℚ)) (m : IFModel) (s : Scaler),
      (ifCheckAndReload fs st).model = some m →
      (ifCheckAndReload fs st).scaler = some s →
      input ≠ [] → s.ok input = true →
      ((ifPredict fs st input).2).verdict = "error" := by
  constructor
  · rfl
  · intro fs st input m s hm hs hne hok
    have hthr : configAggregatorThresholdIF = none := rfl
    simp only [ifPredict, hm, hs]
    unfold ifPredictLoaded
    rw [if_neg (by simpa [List.isEmpty_iff] using hne)]
    unfold Scaler.transform
    rw [if_pos hok]
    cases hdf : m.decisionFunction (input.map s.rowFun) with
    | none => cases hop : m.outlierPred (input.map s.rowFun) <;> simp [hdf, hop, errorResult]
    | some scores =>
      cases hop : m.outlierPred (input.map s.rowFun) with
      | none => simp [hdf, hop, errorResult]
      | some preds => simp [hdf, hop, hthr, errorResult]

/-- Witness for C10 at a loaded dummy artifact and one-row batch. -/
theorem if_predict_error_under_shipped_config_witness :
    ((ifPredict ifFilesAbsent ifStateLoaded [[1]]).2).verdict = "error" :=
  if_predict_error_under_shipped_config.2 ifFilesAbsent ifStateLoaded [[1]]
    dummyIFModel dummyScaler rfl rfl (by simp) rfl

end ZeroHack

namespace ZeroHack

theorem chunkRows_nil (t : ℕ) : chunkRows t [] = [] := by
  rw [chunkRows]
  simp

theorem chunkRows_spec (t : ℕ) (ht : 0 < t) :
    ∀ (n : ℕ) (l : List (List ℚ)), l.length ≤ n → t ∣ l.length →
      (chunkRows t l).length = l.length / t ∧
      (∀ w ∈ chunkRows t l, w.length = t) ∧
      (chunkRows t l).flatten = l := by
  intro n
  induction n with
  | zero =>
    intro l hl _
    have hnil : l = [] := List.eq_nil_of_length_eq_zero (Nat.le_zero.mp hl)
    subst hnil
    exact ⟨by simp [chunkRows_nil], by simp [chunkRows_nil], by simp [chunkRows_nil]⟩
  | succ n ih =>
    intro l hl hd
    by_cases hnil : l = []
    · subst hnil
      exact ⟨by simp [chunkRows_nil], by simp [chunkRows_nil], by simp [chunkRows_nil]⟩
    · obtain ⟨k, hk⟩ := hd
      rcases Nat.eq_zero_or_pos k with hk0 | hkpos
      · rw [hk0, Nat.mul_zero] at hk
        exact absurd (List.eq_nil_of_length_eq_zero hk) hnil
      have hlpos : 0 < l.length := List.length_pos.mpr hnil
      have htle : t ≤ l.length := by
        rw [hk]
        calc t = t * 1 := (Nat.mul_one t).symm
          _ ≤ t * k := Nat.mul_le_mul_left t hkpos
      have hms : t * k = t * (k - 1) + t := by
        cases k with
        | zero => omega
        | succ j => simp [Nat.mul_succ]
      have hdroplen : (l.drop t).length = t * (k - 1) := by
        rw [List.length_drop, hk]
        omega
      have hdvd' : t ∣ (l.drop t).length := ⟨k - 1, hdroplen⟩
      have hle' : (l.drop t).length ≤ n := by
        rw [List.length_drop]
        omega
      obtain ⟨ih1, ih2, ih3⟩ := ih (l.drop t) hle' hdvd'
      have htakelen : (l.take t).length = t := by
        rw [List.length_take]
        omega
      rw [chunkRows, dif_neg (by push_neg; exact ⟨by omega, hnil⟩)]
      refine ⟨?_, ?_, ?_⟩
      · rw [List.length_cons, ih1, hdroplen, hk,
          Nat.mul_div_cancel_left _ ht, Nat.mul_div_cancel_left _ ht]
        omega
      · intro w hw
        rcases List.mem_cons.mp hw with rfl | hw'
        · exact htakelen
        · exact ih2 w hw'
      · simp only [List.flatten_cons, ih3, List.take_append_drop]

theorem reshape_sequences_none_of_short (X : List (List ℚ)) (t : ℕ)
    (h : X.length < t) : reshape_sequences X t = none := by
  unfold reshape_sequences
  by_cases h0 : X.length = 0
  · rw [if_pos h0]
  · rw [if_neg h0, if_pos h]

theorem reshape_sequences_some (t : ℕ) (ht : 0 < t) (X : List (List ℚ))
    (h : t ≤ X.length) :
    reshape_sequences X t = some (chunkRows t (X.take (X.length / t * t))) ∧
    (chunkRows t (X.take (X.length / t * t))).length = X.length / t ∧
    (∀ w ∈ chunkRows t (X.take (X.length / t * t)), w.length = t) ∧
    (chunkRows t (X.take (X.length / t * t))).flatten = X.take (X.length / t * t) := by
  have h0 : X.length ≠ 0 := by omega
  have heq : reshape_sequences X t = some (chunkRows t (X.take (X.length / t * t))) := by
    unfold reshape_sequences
    rw [if_neg h0, if_neg (not_lt.mpr h)]
  have hYlen : (X.take (X.length / t * t)).length = X.length / t * t := by
    rw [List.length_take]
    exact min_eq_left (Nat.div_mul_le_self _ _)
  have hdvd : t ∣ (X.take (X.length / t * t)).length :=
    ⟨X.length / t, by rw [hYlen, Nat.mul_comm]⟩
  obtain ⟨h1, h2, h3⟩ :=
    chunkRows_spec t ht (X.take (X.length / t * t)).length _ le_rfl hdvd
  refine ⟨heq, ?_, h2, h3⟩
  rw [h1, hYlen, Nat.mul_div_cancel _ ht]

/-- C8: the temporal scorer's batch is chunked into non-overlapping windows of
exactly `TIMESTEPS` (10) rows, rows beyond the last full window discarded
before scoring; and every predict call on a batch of fewer than 10 rows
returns verdict `error` rather than padding or guessing. -/
theorem lstm_window_framing :
    (∀ X : List (List ℚ), TIMESTEPS ≤ X.length →
      ∃ ws, reshape_sequences X TIMESTEPS = some ws ∧
        ws.length = X.length / TIMESTEPS ∧
        (∀ w ∈ ws, w.length = TIMESTEPS) ∧
        ws.flatten = X.take (X.length / TIMESTEPS * TIMESTEPS)) ∧
    (∀ (fs : LSTMFiles) (st : LSTMState) (input : List (List ℚ)),
      st.timesteps = TIMESTEPS → input.length < TIMESTEPS →
      ((lstmPredict fs st input).2).verdict = "error") := by
  constructor
  · intro X hX
    obtain ⟨heq, h1, h2, h3⟩ :=
      reshape_sequences_some TIMESTEPS (by norm_num [TIMESTEPS]) X hX
    exact ⟨_, heq, h1, h2, h3⟩
  · intro fs st input hts hlen
    have htspre : (lstmCheckAndReload fs st).timesteps = st.timesteps := by
      unfold lstmCheckAndReload lstmLoadModel
      repeat' split
      all_goals rfl
    cases hm : (lstmCheckAndReload fs st).model with
    | none =>
      cases hs : (lstmCheckAndReload fs st).scaler <;>
        simp [lstmPredict, hm, hs, lstmError]
    | some m =>
      cases hs : (lstmCheckAndReload fs st).scaler with
      | none => simp [lstmPredict, hm, hs, lstmError]
      | some s =>
        simp only [lstmPredict, hm, hs]
        unfold lstmPredictLoaded
        by_cases hemp : input.isEmpty
        · rw [if_pos hemp]
          rfl
        · rw [if_neg hemp]
          unfold Scaler.transform
          by_cases hok : s.ok input = true
          · rw [if_pos hok]
            have hre : reshape_sequences (input.map s.rowFun)
                (lstmCheckAndReload fs st).timesteps = none := by
              apply reshape_sequences_none_of_short
              rw [List.length_map, htspre, hts]
              exact hlen
            simp [hre, lstmError]
          · rw [if_neg hok]
            rfl

/-- Witness for C8: a 12-row batch frames into one full window with 2 rows
discarded, and a 1-row batch makes predict return `error`. -/
theorem lstm_window_framing_witness :
    (∃ ws, reshape_sequences (List.replicate 12 ([0] : List ℚ)) TIMESTEPS = some ws ∧
      ws.length = (List.replicate 12 ([0] : List ℚ)).length / TIMESTEPS ∧
      (∀ w ∈ ws, w.length = TIMESTEPS) ∧
      ws.flatten = (List.replicate 12 ([0] : List ℚ)).take
        ((List.replicate 12 ([0] : List ℚ)).length / TIMESTEPS * TIMESTEPS)) ∧
    ((lstmPredict lstmFilesAbsent lstmStateUnloaded [[1]]).2).verdict = "error" :=
  ⟨lstm_window_framing.1 (List.replicate 12 ([0] : List ℚ))
      (by norm_num [TIMESTEPS, List.length_replicate]),
   lstm_window_framing.2 lstmFilesAbsent lstmStateUnloaded [[1]] rfl
      (by norm_num [TIMESTEPS])⟩

end ZeroHack

namespace ZeroHack

/-! ## Pipeline event formatting (src/threat_detector.py lines 55-69)

`_format_for_signature_engine` reads each row's timestamp value: a missing or
NaT value is replaced by `datetime.datetime.now()`; a string value is parsed
with `pd.to_datetime`, which RAISES on an unparseable string and the
exception propagates out of `analyze_traffic_session` (line 82 has no
try/except around the call). -/

/-- A row's timestamp cell: an already-parsed datetime, a missing/NaT value,
or a string that `pd.to_datetime` parses to `some t` or fails on (`none`). -/
inductive TsVal where
  | datetime (t : ℚ)
  | na
  | str (parsed : Option ℚ)
deriving DecidableEq

/-- One raw event row of the analysis request, as `_format_for_signature_engine`
reads it. -/
structure RawRow where
  timestamp : TsVal
  source_ip : String
  dest_ip : String
  dest_port : ℤ
deriving DecidableEq

/-- Formatting of one row (lines 59-68): NaT becomes the current time, a
parseable string its parsed value, an unparseable string raises (`none`). -/
def formatEvent (now : ℚ) (r : RawRow) : Option SigEvent :=
  match r.timestamp with
  | .na => some ⟨now, r.source_ip, r.dest_ip, r.dest_port⟩
  | .datetime t => some ⟨t, r.source_ip, r.dest_ip, r.dest_port⟩
  | .str (some t) => some ⟨t, r.source_ip, r.dest_ip, r.dest_port⟩
  | .str none => none

/-- `_format_for_signature_engine` over the whole batch: the first raising row
aborts the call (`none`), losing the rest of the batch. -/
def formatForSignatureEngine (now : ℚ) : List RawRow → Option (List SigEvent)
  | [] => some []
  | r :: rs =>
    match formatEvent now r, formatForSignatureEngine now rs with
    | some e, some es => some (e :: es)
    | _, _ => none

/-- The timestamp the formatter actually assigns to a non-raising row. -/
def coercedTimestamp (now : ℚ) : TsVal → ℚ
  | .na => now
  | .datetime t => t
  | .str (some t) => t
  | .str none => now

/-- A row whose timestamp string `pd.to_datetime` cannot parse. -/
def invalidTsRow : RawRow :=
  { timestamp := .str none, source_ip := "1.2.3.4", dest_ip := "10.0.0.5", dest_port := 22 }

/-- A row with a valid timestamp. -/
def validTsRow : RawRow :=
  { timestamp := .datetime 0, source_ip := "1.2.3.4", dest_ip := "10.0.0.5", dest_port := 22 }

/-- A row whose timestamp is missing/NaT. -/
def natTsRow : RawRow :=
  { timestamp := .na, source_ip := "1.2.3.4", dest_ip := "10.0.0.5", dest_port := 22 }

/-- C9 counterexample: (1) a batch holding one valid row and one row with an
unparseable timestamp string makes the formatting raise, aborting the whole
batch — the valid row is NOT analyzed; (2) a NaT-timestamp row is not
excluded from the time-windowed rules: it is handed to them with the current
wall-clock time as its timestamp. -/
theorem timestamp_formatting_counterexample :
    formatForSignatureEngine 1000 [validTsRow, invalidTsRow] = none ∧
    formatForSignatureEngine 1000 [natTsRow] =
      some [⟨1000, "1.2.3.4", "10.0.0.5", 22⟩] := by
  exact ⟨rfl, rfl⟩

/-- C9 amended: a missing/NaT timestamp is coerced to the current time and the
event is still included in the windowed rules, and a batch free of
unparseable timestamp strings is formatted in full; but any row whose
timestamp string fails to parse makes the whole call raise, aborting the
batch. -/
theorem timestamp_formatting_behavior :
    (∀ (now : ℚ) (rows : List RawRow),
      (∀ r ∈ rows, r.timestamp ≠ TsVal.str none) →
      formatForSignatureEngine now rows =
        some (rows.map (fun r =>
          ⟨coercedTimestamp now r.timestamp, r.source_ip, r.dest_ip, r.dest_port⟩))) ∧
    (∀ (now : ℚ) (rows : List RawRow) (r : RawRow),
      r ∈ rows → r.timestamp = TsVal.str none →
      formatForSignatureEngine now rows = none) := by
  constructor
  · intro now rows h
    induction rows with
    | nil => rfl
    | cons r rs ih =>
      have hr := h r (List.mem_cons_self _ _)
      have hfe : formatEvent now r =
          some ⟨coercedTimestamp now r.timestamp, r.source_ip, r.dest_ip, r.dest_port⟩ := by
        cases ht : r.timestamp with
        | na => simp [formatEvent, coercedTimestamp, ht]
        | datetime t => simp [formatEvent, coercedTimestamp, ht]
        | str p =>
          cases p with
          | none => exact absurd ht hr
          | some t => simp [formatEvent, coercedTimestamp, ht]
      have ihh := ih (fun x hx => h x (List.mem_cons_of_mem _ hx))
      simp [formatForSignatureEngine, hfe, ihh]
  · intro now rows r hr hst
    induction rows with
    | nil => cases hr
    | cons x rs ih =>
      rcases List.mem_cons.mp hr with rfl | hr'
      · have hfe : formatEvent now r = none := by
          simp [formatEvent, hst]
        cases hrest : formatForSignatureEngine now rs <;>
          simp [formatForSignatureEngine, hfe, hrest]
      · have hrest := ih hr'
        cases hfe : formatEvent now x <;>
          simp [formatForSignatureEngine, hfe, hrest]

/-- Witness for the amended C9 at concrete batches. -/
theorem timestamp_formatting_behavior_witness :
    formatForSignatureEngine 1000 [natTsRow, validTsRow] =
      some [⟨1000, "1.2.3.4", "10.0.0.5", 22⟩, ⟨0, "1.2.3.4", "10.0.0.5", 22⟩] ∧
    formatForSignatureEngine 1000 [invalidTsRow] = none := by
  constructor
  · have h := timestamp_formatting_behavior.1 1000 [natTsRow, validTsRow]
      (by intro r hr; fin_cases hr <;> simp [natTsRow, validTsRow])
    simpa [natTsRow, validTsRow, coercedTimestamp] using h
  · exact timestamp_formatting_behavior.2 1000 [invalidTsRow] invalidTsRow
      (List.mem_singleton.mpr rfl) rfl

end ZeroHack
